import Mathlib

/-!
Verification of the BlofinTrader band-strategy core against its
natural-language specification.

The functions below are shallow embeddings of the Python source:
  * `BandStrategy` and its methods come from `strategy.py`
    (`__init__`, `calculate_indicators`, `get_signal`,
    `calculate_entry_levels`);
  * `PositionCalculator.get_minimum_amount` and
    `PositionCalculator.calculate_position_size` come from
    `position_calculator.py`;
  * `validate_input` comes from `utils.py`.

Modelling conventions: Python floats become `ℚ`; Python `round(x, n)`
(round-half-to-even on the scaled value) becomes `roundTo n`;
pandas timestamps become milliseconds since the epoch as `ℕ`
(`timedelta(minutes=5)` is `5 * 60000` ms); `None` becomes `Option`;
a Python function that can raise becomes `Except String`.
-/

/-- Python's `round` rounds half to even (banker's rounding).
`roundHalfEven x` is the integer nearest to `x`, ties going to the even
integer. -/
def roundHalfEven (x : ℚ) : ℤ :=
  let n := ⌊x⌋
  let f := x - n
  if f < 1/2 then n
  else if 1/2 < f then n + 1
  else if n % 2 = 0 then n else n + 1

/-- Python's `round(x, d)`: round `x` to `d` fractional decimal digits. -/
def roundTo (d : ℕ) (x : ℚ) : ℚ :=
  (roundHalfEven (x * 10 ^ d) : ℚ) / 10 ^ d

/-- A trade direction; the source uses the strings `'long'` / `'short'`. -/
inductive Direction where
  | long
  | short
deriving DecidableEq, Repr

/-- A raw OHLCV candle (`open` is renamed `openPrice` since `open` is a
Lean keyword). Timestamps are milliseconds, ascending in a series. -/
structure Candle where
  timestamp : ℕ
  openPrice : ℚ
  highPrice : ℚ
  lowPrice : ℚ
  close : ℚ
  volume : ℚ
deriving DecidableEq, Repr

/-- A candle annotated by `calculate_indicators` with the `EMA34`,
`SMA21`, `upper_band` and `lower_band` columns. -/
structure AnnCandle where
  candle : Candle
  EMA34 : ℚ
  SMA21 : ℚ
  upper_band : ℚ
  lower_band : ℚ
deriving DecidableEq, Repr

/-- The band dict `{'upper': …, 'lower': …}` passed to
`calculate_entry_levels`. -/
structure Bands where
  upper : ℚ
  lower : ℚ
deriving DecidableEq, Repr

/-- The `BandStrategy` object from `strategy.py`: the four constructor
parameters plus the mutable fields set in `__init__`
(`active_position`, `last_signal_candle`, `pending_signal`). -/
structure BandStrategy where
  position_size_usd : ℚ
  leverage : ℤ
  tp_multiplier : ℚ
  sl_multiplier : ℚ
  active_position : Option Unit := none
  last_signal_candle : Option ℕ := none
  pending_signal : Option Direction := none
deriving DecidableEq, Repr

/-- `BandStrategy.__init__` (strategy.py lines 10-22). The result type is
`Except` so that failure at construction time is expressible; the body,
taken from the source, only assigns the fields and never fails. -/
def BandStrategy.init (position_size_usd : ℚ) (leverage : ℤ)
    (tp_multiplier : ℚ) (sl_multiplier : ℚ) : Except String BandStrategy :=
  Except.ok
    { position_size_usd := position_size_usd
      leverage := leverage
      tp_multiplier := tp_multiplier
      sl_multiplier := sl_multiplier
      active_position := none
      last_signal_candle := none
      pending_signal := none }

/-- `validate_input` from `utils.py` lines 24-42: raises `ValueError`
(modelled as `Except.error`) on a non-positive position size, leverage
below 1, a non-positive TP or SL percentage, or a symbol not of the form
`XXX-USDT`.  Python's `symbol.endswith("-USDT")` is modelled as a suffix
check on the symbol's character list. -/
def validate_input (symbol : String) (position_size : ℚ) (leverage : ℤ)
    (tp_percentage : ℚ) (sl_percentage : ℚ) : Except String Unit :=
  if position_size ≤ 0 then
    Except.error "Position size must be positive"
  else if leverage < 1 then
    Except.error "Leverage must be at least 1"
  else if tp_percentage ≤ 0 ∨ sl_percentage ≤ 0 then
    Except.error "TP and SL percentages must be positive"
  else if !(("-USDT".data).isSuffixOf symbol.data) then
    Except.error "Symbol must be in format XXX-USDT"
  else
    Except.ok ()

/-- The default candle used to make positional list access total; the
source indexes with `iloc[-1]` / `iloc[-2]` only after checking the
length, so the default is never consulted on those paths. -/
def dfltCandle : Candle :=
  { timestamp := 0, openPrice := 0, highPrice := 0, lowPrice := 0
    close := 0, volume := 0 }

/-- Default annotated candle, same role as `dfltCandle`. -/
def dfltAnn : AnnCandle :=
  { candle := dfltCandle, EMA34 := 0, SMA21 := 0, upper_band := 0
    lower_band := 0 }

/-- `expected_next_candle` is the execution-candle timestamp the detector
computes in `get_signal` (strategy.py line 67):
`self.last_signal_candle + timedelta(minutes=5)`, the five minutes being
hard-coded in the source. -/
def expected_next_candle (last_signal_candle : ℕ) : ℕ :=
  last_signal_candle + 5 * 60000

/-- `BandStrategy.get_signal` (strategy.py lines 38-100), as a state
transition: given the strategy object and the annotated series, return
the optional signal and the updated strategy object. -/
def BandStrategy.get_signal (st : BandStrategy) (df : List AnnCandle) :
    Option Direction × BandStrategy :=
  if df.length < 2 then (none, st)
  else
    let current := df.getD (df.length - 1) dfltAnn
    let prev := df.getD (df.length - 2) dfltAnn
    match st.pending_signal, st.last_signal_candle with
    | some signal, some lastT =>
      let expected := expected_next_candle lastT
      if current.candle.timestamp = expected then
        (some signal,
          { st with pending_signal := none, last_signal_candle := none })
      else if expected < current.candle.timestamp then
        (none,
          { st with pending_signal := none, last_signal_candle := none })
      else
        (none, st)
    | _, _ =>
      if prev.upper_band < prev.candle.close then
        (none,
          { st with pending_signal := some Direction.long
                    last_signal_candle := some prev.candle.timestamp })
      else if prev.candle.close < prev.lower_band then
        (none,
          { st with pending_signal := some Direction.short
                    last_signal_candle := some prev.candle.timestamp })
      else
        (none, st)

/-- `BandStrategy.calculate_entry_levels` (strategy.py lines 102-120):
band distance times the multipliers, added to or subtracted from the
entry price depending on direction, both results rounded to 4 fractional
digits. -/
def BandStrategy.calculate_entry_levels (st : BandStrategy)
    (current_price : ℚ) (bands : Bands) (is_long : Bool) : ℚ × ℚ :=
  let band_distance := |bands.upper - bands.lower|
  if is_long then
    let tp_distance := band_distance * st.tp_multiplier
    let sl_distance := band_distance * st.sl_multiplier
    let tp_price := current_price + tp_distance
    let sl_price := current_price - sl_distance
    (roundTo 4 tp_price, roundTo 4 sl_price)
  else
    let tp_distance := band_distance * st.tp_multiplier
    let sl_distance := band_distance * st.sl_multiplier
    let tp_price := current_price - tp_distance
    let sl_price := current_price + sl_distance
    (roundTo 4 tp_price, roundTo 4 sl_price)

/-- The take-profit price before rounding, read off the branches of
`calculate_entry_levels`. -/
def tpRaw (st : BandStrategy) (current_price : ℚ) (bands : Bands)
    (is_long : Bool) : ℚ :=
  if is_long then
    current_price + |bands.upper - bands.lower| * st.tp_multiplier
  else
    current_price - |bands.upper - bands.lower| * st.tp_multiplier

/-- The stop-loss price before rounding, read off the branches of
`calculate_entry_levels`. -/
def slRaw (st : BandStrategy) (current_price : ℚ) (bands : Bands)
    (is_long : Bool) : ℚ :=
  if is_long then
    current_price - |bands.upper - bands.lower| * st.sl_multiplier
  else
    current_price + |bands.upper - bands.lower| * st.sl_multiplier

/-- `ewm(span=34, adjust=False)` continuation: given the previous value
of the exponential average, produce the remaining values.  The
recurrence is `y = close * k + prev * (1 - k)` with `k = 2/(34+1)`. -/
def ema34From : ℚ → List ℚ → List ℚ
  | _, [] => []
  | prev, c :: rest =>
    let y := c * (2/35) + prev * (1 - 2/35)
    y :: ema34From y rest

/-- The `EMA34` column of `calculate_indicators`: pandas
`ewm(span=34, adjust=False).mean()`, seeded with the first close. -/
def ema34List : List ℚ → List ℚ
  | [] => []
  | c :: rest => c :: ema34From c rest

/-- The `SMA21` value at row `i`: pandas `rolling(window=21).mean()`,
i.e. the arithmetic mean of `close[i-20..i]`; meaningful only for
`20 ≤ i` (earlier rows are NaN in pandas and are dropped below). -/
def sma21At (closes : List ℚ) (i : ℕ) : ℚ :=
  ((closes.drop (i - 20)).take 21).sum / 21

/-- Row `i` of the annotated frame produced by `calculate_indicators`:
the candle plus `EMA34`, `SMA21`, `upper_band = max`, `lower_band = min`. -/
def annotateAt (df : List Candle) (i : ℕ) : AnnCandle :=
  let closes := df.map Candle.close
  let e := (ema34List closes).getD i 0
  let s := sma21At closes i
  { candle := df.getD i dfltCandle, EMA34 := e, SMA21 := s
    upper_band := max e s, lower_band := min e s }

/-- `BandStrategy.calculate_indicators` (strategy.py lines 24-36; it
does not read `self`).  pandas leaves `SMA21` as NaN on the first 20
rows and `df.dropna()` removes exactly those rows, so the annotated
series keeps row `i` iff `20 ≤ i`. -/
def BandStrategy.calculate_indicators (df : List Candle) : List AnnCandle :=
  (List.range df.length).filterMap fun i =>
    if 20 ≤ i then some (annotateAt df i) else none

namespace PositionCalculator

/-- `PositionCalculator.get_minimum_amount` (position_calculator.py
lines 13-16): the `MIN_AMOUNTS` lookup with its `'DEFAULT'` fallback of
1.0 (the `'DEFAULT'` key itself also maps to 1.0). -/
def get_minimum_amount (symbol : String) : ℚ :=
  if symbol = "BTC-USDT" then 1/10
  else if symbol = "ETH-USDT" then 1
  else 1

/-- `PositionCalculator.calculate_position_size` (position_calculator.py
lines 18-37).  The Python rebinds `position_size` three times; the
successive `let`s mirror that chain. -/
def calculate_position_size (price : ℚ) (usd_size : ℚ) (leverage : ℤ)
    (symbol : String) : ℚ :=
  let position_size := usd_size * (leverage : ℚ) / price
  let min_amount := get_minimum_amount symbol
  let rounded := roundTo 4 position_size
  let clamped := if rounded < min_amount then min_amount else rounded
  roundTo 8 clamped

end PositionCalculator

/-- Spec-side definition, for comparison with the code: the
`StrategyConfig` record of the specification's data model,
`{positionSizeUsd, leverage, tpMultiplier, slMultiplier,
candleIntervalMinutes}`.  The source's `BandStrategy.__init__` has no
`candleIntervalMinutes` parameter. -/
structure SpecStrategyConfig where
  positionSizeUsd : ℚ
  leverage : ℤ
  tpMultiplier : ℚ
  slMultiplier : ℚ
  candleIntervalMinutes : ℕ
deriving DecidableEq, Repr

/-- Spec-side definition, for comparison with the code: the expected
execution candle timestamp of the specification,
`armedAtCandleTimestamp + candleInterval`, with the interval taken from
the configured `candleIntervalMinutes`. -/
def specExpectedExecution (cfg : SpecStrategyConfig) (armedAt : ℕ) : ℕ :=
  armedAt + cfg.candleIntervalMinutes * 60000

/-- A sample strategy object with equal multipliers, used by concrete
instances below. -/
def sampleStrategy : BandStrategy :=
  { position_size_usd := 100, leverage := 3
    tp_multiplier := 1, sl_multiplier := 1 }

/-- `sampleStrategy` with a Long signal armed at timestamp 600000 ms. -/
def sampleArmed : BandStrategy :=
  { sampleStrategy with
    pending_signal := some Direction.long
    last_signal_candle := some 600000 }

/-- Build an annotated candle fixture from a timestamp, a close and the
two bands. -/
def mkAnn (t : ℕ) (c u l : ℚ) : AnnCandle :=
  { candle :=
      { timestamp := t, openPrice := 0, highPrice := 0, lowPrice := 0
        close := c, volume := 0 }
    EMA34 := 0, SMA21 := 0, upper_band := u, lower_band := l }

/-- Two-candle series whose current candle sits exactly one 5-minute
interval after `sampleArmed`'s armed timestamp. -/
def dfOnTime : List AnnCandle :=
  [mkAnn 600000 100 105 95, mkAnn 900000 100 105 95]

/-- Two-candle series whose current candle is two intervals after
`sampleArmed`'s armed timestamp: the execution window was missed. -/
def dfMissed : List AnnCandle :=
  [mkAnn 600000 100 105 95, mkAnn 1200000 100 105 95]

/-- Two-candle series with a breakout on the previous candle: its close
110 is above its upper band 105, so a call with no pending signal arms
Long. -/
def dfBreakout : List AnnCandle :=
  [mkAnn 600000 110 105 95, mkAnn 900000 100 105 95]

/-! ## Rounding lemmas -/

theorem roundHalfEven_intCast (n : ℤ) : roundHalfEven (n : ℚ) = n := by
  unfold roundHalfEven
  simp [Int.floor_intCast]

theorem roundHalfEven_le_of_lt_int {x : ℚ} {n : ℤ} (h : x < (n : ℚ)) :
    roundHalfEven x ≤ n := by
  have hf : ⌊x⌋ < n := Int.floor_lt.mpr h
  simp only [roundHalfEven]
  split_ifs <;> omega

theorem int_le_roundHalfEven {x : ℚ} {n : ℤ} (h : (n : ℚ) ≤ x) :
    n ≤ roundHalfEven x := by
  have hf : n ≤ ⌊x⌋ := Int.le_floor.mpr h
  simp only [roundHalfEven]
  split_ifs <;> omega

theorem roundTo_eq_self {d : ℕ} {x : ℚ} (h : ∃ k : ℤ, x * 10 ^ d = (k : ℚ)) :
    roundTo d x = x := by
  obtain ⟨k, hk⟩ := h
  unfold roundTo
  rw [hk, roundHalfEven_intCast, div_eq_iff (by positivity : ((10:ℚ) ^ d) ≠ 0)]
  exact hk.symm

theorem roundTo_le_of_lt {d : ℕ} {x m : ℚ} {k : ℤ} (hm : m * 10 ^ d = (k : ℚ))
    (h : x < m) : roundTo d x ≤ m := by
  have h10 : (0:ℚ) < 10 ^ d := by positivity
  have hlt : x * 10 ^ d < (k : ℚ) := by
    rw [← hm]
    exact mul_lt_mul_of_pos_right h h10
  have hr : roundHalfEven (x * 10 ^ d) ≤ k := roundHalfEven_le_of_lt_int hlt
  unfold roundTo
  rw [div_le_iff₀ h10, hm]
  exact_mod_cast hr

theorem le_roundTo_of_le {d : ℕ} {x m : ℚ} {k : ℤ} (hm : m * 10 ^ d = (k : ℚ))
    (h : m ≤ x) : m ≤ roundTo d x := by
  have h10 : (0:ℚ) < 10 ^ d := by positivity
  have hle : (k : ℚ) ≤ x * 10 ^ d := by
    rw [← hm]
    exact mul_le_mul_of_nonneg_right h (le_of_lt h10)
  have hr : k ≤ roundHalfEven (x * 10 ^ d) := int_le_roundHalfEven hle
  unfold roundTo
  rw [le_div_iff₀ h10, hm]
  exact_mod_cast hr

/-- Rounding 1.00002 to 4 fractional digits gives 1: the fractional part
0.2 of the scaled value 10000.2 rounds down. -/
theorem roundTo_four_of_point_two : roundTo 4 ((100002 : ℚ)/100000) = 1 := by
  have hf : ⌊(100002:ℚ)/100000 * 10 ^ 4⌋ = 10000 := by
    norm_num [Int.floor_eq_iff]
  unfold roundTo roundHalfEven
  rw [hf]
  norm_num

/-! ## Entry-level evaluations on concrete inputs -/

theorem entry_levels_eval_degenerate_long :
    (sampleStrategy.calculate_entry_levels (100002/100000) ⟨5, 5⟩ true).1
      = roundTo 4 (100002/100000) := by
  norm_num [BandStrategy.calculate_entry_levels, sampleStrategy]

theorem entry_levels_eval_long_tp :
    (sampleStrategy.calculate_entry_levels 100 ⟨105, 95⟩ true).1 = 110 := by
  have habs : |(105:ℚ) - 95| = 10 := by norm_num [abs_of_nonneg]
  norm_num [BandStrategy.calculate_entry_levels, sampleStrategy, habs]
  exact roundTo_eq_self ⟨1100000, by norm_num⟩

theorem entry_levels_eval_short_sl :
    (sampleStrategy.calculate_entry_levels 100 ⟨105, 95⟩ false).2 = 110 := by
  have habs : |(105:ℚ) - 95| = 10 := by norm_num [abs_of_nonneg]
  norm_num [BandStrategy.calculate_entry_levels, sampleStrategy, habs]
  exact roundTo_eq_self ⟨1100000, by norm_num⟩

/-- C4 counterexample: at entry 100, bands [95, 105] and equal
multipliers 1, Long's TP is 110 and Short's SL is also 110, so
`tp_long - entry = 10` while `entry - sl_short = -10`: the claimed
equality `tp_long - entry = entry - sl_short` fails. -/
theorem tp_long_vs_sl_short_sign_cex :
    ¬ ((sampleStrategy.calculate_entry_levels 100 ⟨105, 95⟩ true).1 - 100
        = 100 - (sampleStrategy.calculate_entry_levels 100 ⟨105, 95⟩ false).2) := by
  rw [entry_levels_eval_long_tp, entry_levels_eval_short_sl]
  norm_num

/-- C4 (amended): for equal TP and SL multipliers,
`calculate_entry_levels` gives Long's take-profit equal to Short's
stop-loss: `tp_long - entry = sl_short - entry` (same offset in the same
direction, not opposite ones). -/
theorem tp_long_eq_sl_short_of_equal_multipliers (st : BandStrategy)
    (p : ℚ) (bd : Bands) (h : st.tp_multiplier = st.sl_multiplier) :
    (st.calculate_entry_levels p bd true).1 - p
      = (st.calculate_entry_levels p bd false).2 - p := by
  simp [BandStrategy.calculate_entry_levels, h]

/-- C4 witness: the amended equality at entry 100, bands [95, 105],
multipliers both 1. -/
theorem tp_long_eq_sl_short_witness :
    (sampleStrategy.calculate_entry_levels 100 ⟨105, 95⟩ true).1 - 100
      = (sampleStrategy.calculate_entry_levels 100 ⟨105, 95⟩ false).2 - 100 :=
  tp_long_eq_sl_short_of_equal_multipliers sampleStrategy 100 ⟨105, 95⟩ rfl

/-- C5 counterexample: with a zero-width band (upper = lower = 5) and
entry price 1.00002, the Long take-profit returned is
`round(1.00002, 4) = 1`, not the entry price 1.00002: TP and SL equal
each other but not the entry. -/
theorem zero_width_band_entry_price_cex :
    ¬ ((sampleStrategy.calculate_entry_levels (100002/100000) ⟨5, 5⟩ true).1
        = 100002/100000) := by
  rw [entry_levels_eval_degenerate_long, roundTo_four_of_point_two]
  norm_num

/-- C5 (amended): with upper band equal to lower band the band width is
zero, and both directions return take-profit and stop-loss equal to the
entry price rounded to 4 fractional digits (hence equal to the entry
price exactly when it carries at most 4 fractional digits). -/
theorem zero_width_band_levels_round_entry (st : BandStrategy) (p : ℚ)
    (bd : Bands) (h : bd.upper = bd.lower) (b : Bool) :
    (st.calculate_entry_levels p bd b).1 = roundTo 4 p
    ∧ (st.calculate_entry_levels p bd b).2 = roundTo 4 p := by
  cases b <;> simp [BandStrategy.calculate_entry_levels, h]

/-- C5 witness: the amended property at entry 100 and the degenerate
bands upper = lower = 5, Long direction. -/
theorem zero_width_band_levels_witness :
    (sampleStrategy.calculate_entry_levels 100 ⟨5, 5⟩ true).1 = roundTo 4 100
    ∧ (sampleStrategy.calculate_entry_levels 100 ⟨5, 5⟩ true).2 = roundTo 4 100 :=
  zero_width_band_levels_round_entry sampleStrategy 100 ⟨5, 5⟩ rfl true

/-- C6 counterexample: at entry 1.00002 with a zero-width band,
`calculate_entry_levels` returns 1 (the entry rounded to 4 digits) while
rounding the raw take-profit to 8 digits would return 1.00002 exactly:
the function does not round to 8 fractional digits. -/
theorem entry_levels_not_rounded_to_eight_cex :
    ¬ (sampleStrategy.calculate_entry_levels (100002/100000) ⟨5, 5⟩ true
        = (roundTo 8 (tpRaw sampleStrategy (100002/100000) ⟨5, 5⟩ true),
           roundTo 8 (slRaw sampleStrategy (100002/100000) ⟨5, 5⟩ true))) := by
  intro hEq
  have h1 : (sampleStrategy.calculate_entry_levels (100002/100000) ⟨5, 5⟩ true).1
      = roundTo 8 (tpRaw sampleStrategy (100002/100000) ⟨5, 5⟩ true) := by
    rw [hEq]
  rw [entry_levels_eval_degenerate_long, roundTo_four_of_point_two] at h1
  have htp : tpRaw sampleStrategy (100002/100000) ⟨5, 5⟩ true
      = 100002/100000 := by
    norm_num [tpRaw, sampleStrategy]
  rw [htp, roundTo_eq_self ⟨100002000, by norm_num⟩] at h1
  norm_num at h1

/-- C6 (amended): for every input, `calculate_entry_levels` rounds both
the take-profit and the stop-loss to exactly 4 fractional decimal
digits (not 8): it returns the raw prices under `roundTo 4`. -/
theorem entry_levels_rounded_to_four (st : BandStrategy) (p : ℚ)
    (bd : Bands) (b : Bool) :
    st.calculate_entry_levels p bd b
      = (roundTo 4 (tpRaw st p bd b), roundTo 4 (slRaw st p bd b)) := by
  cases b <;> simp [BandStrategy.calculate_entry_levels, tpRaw, slRaw]

/-! ## Position sizing (C7) -/

theorem get_minimum_amount_scaled (s : String) :
    ∃ k : ℤ, PositionCalculator.get_minimum_amount s * 10 ^ 4 = (k : ℚ) := by
  unfold PositionCalculator.get_minimum_amount
  split_ifs
  · exact ⟨1000, by norm_num⟩
  · exact ⟨10000, by norm_num⟩
  · exact ⟨10000, by norm_num⟩

theorem roundTo_four_scaled (x : ℚ) :
    ∃ k : ℤ, roundTo 4 x * 10 ^ 8 = (k : ℚ) := by
  refine ⟨roundHalfEven (x * 10 ^ 4) * 10 ^ 4, ?_⟩
  unfold roundTo
  push_cast
  field_simp
  ring

/-- C7: `calculate_position_size` never returns below the symbol's
minimum amount; when the raw size `usd * leverage / price` is below the
minimum it returns exactly the minimum, and otherwise it returns the raw
size rounded (to 4 fractional digits, the final 8-digit rounding being
the identity on it). -/
theorem position_size_clamped_to_minimum (price usd_size : ℚ) (leverage : ℤ)
    (symbol : String) (hp : 0 < price) (hu : 0 < usd_size) (hl : 0 < leverage) :
    PositionCalculator.get_minimum_amount symbol
      ≤ PositionCalculator.calculate_position_size price usd_size leverage symbol
    ∧ (usd_size * leverage / price < PositionCalculator.get_minimum_amount symbol →
        PositionCalculator.calculate_position_size price usd_size leverage symbol
          = PositionCalculator.get_minimum_amount symbol)
    ∧ (PositionCalculator.get_minimum_amount symbol ≤ usd_size * leverage / price →
        PositionCalculator.calculate_position_size price usd_size leverage symbol
          = roundTo 4 (usd_size * leverage / price)) := by
  obtain ⟨k, hk⟩ := get_minimum_amount_scaled symbol
  set raw := usd_size * (leverage : ℚ) / price with hraw
  set m := PositionCalculator.get_minimum_amount symbol with hmdef
  have hshape : PositionCalculator.calculate_position_size price usd_size leverage symbol
      = roundTo 8 (if roundTo 4 raw < m then m else roundTo 4 raw) := rfl
  have hm8 : roundTo 8 m = m := by
    refine roundTo_eq_self ⟨k * 10 ^ 4, ?_⟩
    push_cast
    rw [show ((10:ℚ) ^ 8) = 10 ^ 4 * 10 ^ 4 by norm_num, ← mul_assoc, hk]
    norm_num
  have hr8 : roundTo 8 (roundTo 4 raw) = roundTo 4 raw :=
    roundTo_eq_self (roundTo_four_scaled raw)
  rw [hshape]
  by_cases hc : roundTo 4 raw < m
  · rw [if_pos hc]
    refine ⟨?_, ?_, ?_⟩
    · rw [hm8]
    · intro _
      exact hm8
    · intro hge
      exact absurd (le_roundTo_of_le hk hge) (not_le.mpr hc)
  · rw [if_neg hc]
    refine ⟨?_, ?_, ?_⟩
    · rw [hr8]
      exact not_lt.mp hc
    · intro hlt
      rw [hr8]
      exact le_antisymm (roundTo_le_of_lt hk hlt) (not_lt.mp hc)
    · intro _
      exact hr8

/-- C7 witness: the claim's clamped scenario `usdNotional = 10,
leverage = 1, price = 1000, minimum = 1.0` returns 1.0. -/
theorem position_size_clamped_witness :
    PositionCalculator.calculate_position_size 1000 10 1 "ETH-USDT" = 1 := by
  have hmin : PositionCalculator.get_minimum_amount "ETH-USDT" = 1 := rfl
  have h := (position_size_clamped_to_minimum 1000 10 1 "ETH-USDT"
    (by norm_num) (by norm_num) (by norm_num)).2.1
  rw [hmin] at h
  exact h (by norm_num)

/-! ## Signal detector (C1, C2, C3, C10) -/

/-- C1: if a pending signal is armed at timestamp `T` and the detect
call's current (last) candle timestamp is strictly past `T` plus the
candle interval, the call returns no signal and clears both the pending
signal and its armed timestamp, so an armed signal never survives past
the immediately following candle boundary. -/
theorem pending_discarded_after_missed_window (st : BandStrategy)
    (df : List AnnCandle) (d : Direction) (T : ℕ)
    (hlen : 2 ≤ df.length)
    (hp : st.pending_signal = some d)
    (ht : st.last_signal_candle = some T)
    (hgt : expected_next_candle T
      < (df.getD (df.length - 1) dfltAnn).candle.timestamp) :
    (st.get_signal df).1 = none
    ∧ (st.get_signal df).2.pending_signal = none
    ∧ (st.get_signal df).2.last_signal_candle = none := by
  simp only [BandStrategy.get_signal, hp, ht]
  rw [if_neg (by omega : ¬ df.length < 2)]
  rw [if_neg (by omega : ¬ (df.getD (df.length - 1) dfltAnn).candle.timestamp
    = expected_next_candle T)]
  rw [if_pos hgt]
  exact ⟨rfl, rfl, rfl⟩

/-- C1 witness: `sampleArmed` (armed at 600000 ms) fed a series whose
current candle sits two 5-minute intervals later (1200000 ms): the call
discards the pending signal and returns none. -/
theorem pending_discarded_witness :
    (sampleArmed.get_signal dfMissed).1 = none
    ∧ (sampleArmed.get_signal dfMissed).2.pending_signal = none
    ∧ (sampleArmed.get_signal dfMissed).2.last_signal_candle = none :=
  pending_discarded_after_missed_window sampleArmed dfMissed Direction.long
    600000 (by decide) rfl rfl (by decide)

/-- C2: a call that starts with no armed pending state (the state a call
that arms necessarily starts from) returns no signal, and any call that
does return a fired signal started with a pending signal already armed:
arm and fire are always at least one call apart. -/
theorem arming_call_returns_no_signal (st : BandStrategy)
    (df : List AnnCandle) :
    ((st.pending_signal = none ∨ st.last_signal_candle = none) →
      (st.get_signal df).1 = none)
    ∧ (∀ d : Direction, (st.get_signal df).1 = some d →
        st.pending_signal.isSome = true ∧ st.last_signal_candle.isSome = true) := by
  constructor
  · intro h
    rcases hps : st.pending_signal with _ | sig <;>
      rcases hts : st.last_signal_candle with _ | T <;>
        simp only [BandStrategy.get_signal, hps, hts] <;>
          split_ifs <;> simp_all
  · intro d h
    rcases hps : st.pending_signal with _ | sig <;>
      rcases hts : st.last_signal_candle with _ | T <;>
        simp only [BandStrategy.get_signal, hps, hts] at h <;>
          split_ifs at h <;> simp_all

/-- C2 witness: a call on `dfBreakout` (previous close 110 above its
upper band 105) from the empty-pending state arms a signal yet returns
none. -/
theorem arming_call_witness :
    (sampleStrategy.get_signal dfBreakout).1 = none :=
  (arming_call_returns_no_signal sampleStrategy dfBreakout).1 (Or.inl rfl)

/-- C3 counterexample: with `candleIntervalMinutes = 15` in the
configuration, the detector's expected execution timestamp for a signal
armed at 0 is 300000 ms (the hard-coded 5 minutes), not the configured
900000 ms: the expected timestamp does not equal `T` plus the configured
interval. -/
theorem expected_candle_ignores_configured_interval_cex :
    ¬ (expected_next_candle 0
        = specExpectedExecution
            { positionSizeUsd := 100, leverage := 3, tpMultiplier := 2
              slMultiplier := 1, candleIntervalMinutes := 15 } 0) := by
  decide

/-- C3 (amended): the detector's expected execution timestamp is the
armed timestamp plus a hard-coded 5 minutes (300000 ms); it agrees with
the spec's `armedAt + candleIntervalMinutes` exactly for configurations
whose interval is 5 minutes. -/
theorem expected_candle_hardcoded_five_minutes :
    (∀ T : ℕ, expected_next_candle T = T + 5 * 60000)
    ∧ ∀ (cfg : SpecStrategyConfig) (T : ℕ), cfg.candleIntervalMinutes = 5 →
        specExpectedExecution cfg T = expected_next_candle T := by
  constructor
  · intro T
    rfl
  · intro cfg T h
    simp [specExpectedExecution, expected_next_candle, h]

/-- C3 witness: a 5-minute configuration agrees with the code's expected
timestamp at armed time 0. -/
theorem expected_candle_witness :
    specExpectedExecution
      { positionSizeUsd := 100, leverage := 3, tpMultiplier := 2
        slMultiplier := 1, candleIntervalMinutes := 5 } 0
      = expected_next_candle 0 :=
  expected_candle_hardcoded_five_minutes.2
    { positionSizeUsd := 100, leverage := 3, tpMultiplier := 2
      slMultiplier := 1, candleIntervalMinutes := 5 } 0 rfl

/-- C10: whenever `get_signal` returns a fired signal, its direction is
the direction of the pending signal held at the start of the call, and
the post-call state holds neither a pending signal nor an armed
timestamp. -/
theorem fired_signal_from_pending_and_cleared (st : BandStrategy)
    (df : List AnnCandle) (d : Direction)
    (h : (st.get_signal df).1 = some d) :
    st.pending_signal = some d
    ∧ (st.get_signal df).2.pending_signal = none
    ∧ (st.get_signal df).2.last_signal_candle = none := by
  rcases hps : st.pending_signal with _ | sig <;>
    rcases hts : st.last_signal_candle with _ | T <;>
      simp only [BandStrategy.get_signal, hps, hts] at h ⊢ <;>
        split_ifs at h ⊢ <;> simp_all

/-- C10 witness: `sampleArmed` fed `dfOnTime` (current candle exactly
one interval after arming) fires Long — the direction armed — and the
state is fully cleared. -/
theorem fired_signal_witness :
    sampleArmed.pending_signal = some Direction.long
    ∧ (sampleArmed.get_signal dfOnTime).2.pending_signal = none
    ∧ (sampleArmed.get_signal dfOnTime).2.last_signal_candle = none :=
  fired_signal_from_pending_and_cleared sampleArmed dfOnTime Direction.long
    (by decide)

/-! ## Construction-time validation (C9) -/

/-- C9 counterexample: `BandStrategy.__init__` performs no validation:
constructing a strategy with the invalid position size −1 (and leverage
3, multipliers 2 and 1) succeeds instead of failing with a configuration
error. -/
theorem construction_never_fails_cex :
    ((-1 : ℚ) ≤ 0) ∧ (BandStrategy.init (-1) 3 2 1).isOk = true :=
  ⟨by norm_num, rfl⟩

/-- C9 (amended): construction of the strategy always succeeds, whatever
the config values; the checks the claim describes exist in the unused
utility `validate_input`, which errors on non-positive size, leverage
below 1, or a non-positive multiplier, and accepts every valid config
for an `XXX-USDT` symbol — but it is never invoked at construction
time. -/
theorem construction_total_validation_unwired (symbol : String) (p : ℚ)
    (l : ℤ) (tp sl : ℚ) :
    (BandStrategy.init p l tp sl).isOk = true
    ∧ ((p ≤ 0 ∨ l < 1 ∨ tp ≤ 0 ∨ sl ≤ 0) →
        (validate_input symbol p l tp sl).isOk = false)
    ∧ (0 < p → 1 ≤ l → 0 < tp → 0 < sl →
        ("-USDT".data).isSuffixOf symbol.data = true →
        validate_input symbol p l tp sl = Except.ok ()) := by
  refine ⟨rfl, ?_, ?_⟩
  · intro h
    unfold validate_input
    split_ifs with h1 h2 h3 h4
    · rfl
    · rfl
    · rfl
    · rfl
    · exfalso
      rcases h with h | h | h | h
      · exact h1 h
      · exact h2 h
      · exact h3 (Or.inl h)
      · exact h3 (Or.inr h)
  · intro hp hl htp hsl he
    unfold validate_input
    rw [if_neg (not_le.mpr hp), if_neg (not_lt.mpr hl),
      if_neg (not_or.mpr ⟨not_le.mpr htp, not_le.mpr hsl⟩)]
    simp [he]

/-- C9 witness: `validate_input` accepts the valid config (size 100,
leverage 3, multipliers 2 and 1, symbol BTC-USDT), and an invalid size
is rejected by it while construction still succeeds. -/
theorem construction_validation_witness :
    validate_input "BTC-USDT" 100 3 2 1 = Except.ok () :=
  (construction_total_validation_unwired "BTC-USDT" 100 3 2 1).2.2
    (by norm_num) (by norm_num) (by norm_num) (by norm_num) (by decide)

/-! ## Indicator warm-up truncation (C8) -/

theorem filterMap_warmup_ge {α : Type} (g : ℕ → α) :
    ∀ (k s : ℕ), 20 ≤ s →
      (List.range' s k).filterMap
          (fun i => if 20 ≤ i then some (g i) else none)
        = (List.range' s k).map g := by
  intro k
  induction k with
  | zero => intro s _; rfl
  | succ k ih =>
    intro s hs
    rw [List.range'_succ]
    simp only [List.filterMap_cons, List.map_cons, if_pos hs]
    rw [ih (s + 1) (by omega)]

theorem map_getD_range'_shift {α : Type} (a : α) (t : List α) (dflt : α) :
    ∀ (k m : ℕ),
      (List.range' (m + 1) k).map (fun i => (a :: t).getD i dflt)
        = (List.range' m k).map (fun i => t.getD i dflt) := by
  intro k
  induction k with
  | zero => intro m; rfl
  | succ k ih =>
    intro m
    rw [List.range'_succ, List.range'_succ, List.map_cons, List.map_cons,
      List.getD_cons_succ, ih (m + 1)]

theorem drop_eq_map_getD_range' {α : Type} (dflt : α) :
    ∀ (l : List α) (m : ℕ),
      (List.range' m (l.length - m)).map (fun i => l.getD i dflt) = l.drop m := by
  intro l
  induction l with
  | nil => intro m; simp
  | cons a t ih =>
    intro m
    cases m with
    | zero =>
      rw [List.drop_zero, List.length_cons, Nat.sub_zero, List.range'_succ,
        List.map_cons, List.getD_cons_zero, map_getD_range'_shift]
      have h0 := ih 0
      rw [Nat.sub_zero, List.drop_zero] at h0
      rw [h0]
    | succ m =>
      rw [List.length_cons, Nat.succ_sub_succ, List.drop_succ_cons,
        map_getD_range'_shift, ih m]

/-- C8: for a series of fewer than 21 candles `calculate_indicators`
returns the empty annotated series; for at least 21 candles exactly the
first 20 candles are dropped (the annotated rows are in one-to-one
correspondence with `df.drop 20`) and every remaining row carries its
band snapshot `upper = max(EMA34, SMA21)`, `lower = min(EMA34, SMA21)`. -/
theorem indicator_warmup_truncation (df : List Candle) :
    (df.length < 21 → BandStrategy.calculate_indicators df = [])
    ∧ (21 ≤ df.length →
        (BandStrategy.calculate_indicators df).map AnnCandle.candle = df.drop 20
        ∧ ∀ a ∈ BandStrategy.calculate_indicators df,
            a.upper_band = max a.EMA34 a.SMA21
            ∧ a.lower_band = min a.EMA34 a.SMA21) := by
  constructor
  · intro h
    apply List.filterMap_eq_nil_iff.mpr
    intro i hi
    have hlt : i < df.length := List.mem_range.mp hi
    rw [if_neg (by omega)]
  · intro h
    have hsum : df.length - 20 + 20 = df.length := by omega
    have hsplit : List.range' 0 20 ++ List.range' 20 (df.length - 20)
        = List.range' 0 df.length := by
      have happ := List.range'_append_1 0 20 (df.length - 20)
      rw [Nat.zero_add, hsum] at happ
      exact happ
    have h1 : (List.range' 0 20).filterMap
        (fun i => if 20 ≤ i then some (annotateAt df i) else none) = [] := by
      apply List.filterMap_eq_nil_iff.mpr
      intro i hi
      have := List.mem_range'_1.mp hi
      rw [if_neg (by omega)]
    have h2 := filterMap_warmup_ge (annotateAt df) (df.length - 20) 20 (by omega)
    unfold BandStrategy.calculate_indicators
    rw [List.range_eq_range', ← hsplit, List.filterMap_append, h1, h2,
      List.nil_append]
    constructor
    · rw [List.map_map]
      have hc : (AnnCandle.candle ∘ annotateAt df)
          = fun i => df.getD i dfltCandle := funext fun i => rfl
      rw [hc]
      have hd := drop_eq_map_getD_range' dfltCandle df 20
      rw [hd]
    · intro a ha
      obtain ⟨i, hi, rfl⟩ := List.mem_map.mp ha
      exact ⟨rfl, rfl⟩

/-- C8 witness: a concrete 21-candle series keeps exactly its last
candle, and that row carries its band snapshot. -/
theorem indicator_warmup_witness :
    (BandStrategy.calculate_indicators (List.replicate 21 dfltCandle)).map
        AnnCandle.candle
      = (List.replicate 21 dfltCandle).drop 20
    ∧ ∀ a ∈ BandStrategy.calculate_indicators (List.replicate 21 dfltCandle),
        a.upper_band = max a.EMA34 a.SMA21
        ∧ a.lower_band = min a.EMA34 a.SMA21 :=
  (indicator_warmup_truncation (List.replicate 21 dfltCandle)).2 (by simp)
